import Mathlib

/-
Shallow embedding of the relationship/component metadata registry from
crates/bevy_ecs/src/component/mod.rs.

Modelling conventions:
- Rust `TypeId` is an opaque process-wide key: modelled as `Nat`.  The two
  marker types `relationship_kinds::HasComponent` / `HasResource` get the
  distinct designated keys 0 and 1.
- `HashMap<K, V>` is modelled as a function `K → Option V`; `insert`
  becomes a pointwise functional update.
- `Vec<T>` is a `List T`, push is append at the tail, `Vec::get` (and the
  unchecked get, whose out-of-bounds UB never arises where it is used) is
  the partial list index `l[i]?`.
- A Rust panic (the `assert!` in `new_dummy_id`, the panicking index
  operators in `relkind_of_has_component` / `relkind_of_has_resource`) is
  modelled by returning `none`.
- `std::alloc::Layout` is a (size, align) pair of naturals; the unsafe
  `drop` function pointer is an opaque tag (`Nat`), since no claim ever
  calls it.
- The `&mut self` methods become explicit state-passing: each returns its
  result together with the updated `Relationships` value.
- `get_relationship_info_or_insert_with` additionally returns a `Nat`
  counting how many times the `data_layout` closure was invoked (0 or 1),
  making the laziness of `Entry::or_insert_with` observable.
-/

namespace BevyEcs

abbrev TypeId := Nat

abbrev Entity := Nat

/-- The opaque tag standing in for `unsafe fn(*mut u8)` destructor pointers. -/
abbrev DropFn := Nat

inductive StorageType where
  | table
  | sparseSet
deriving DecidableEq, Repr

/-- impl Default for StorageType: `StorageType::Table`. -/
def StorageType.default : StorageType := .table

/-- std::alloc::Layout, reduced to the (size, align) data the registry stores. -/
structure Layout where
  size : Nat
  align : Nat
deriving DecidableEq, Repr

/-- struct DataLayout (component/mod.rs lines 31-40). -/
structure DataLayout where
  name : String
  storage_type : StorageType
  is_send_and_sync : Bool
  type_id : Option TypeId
  layout : Layout
  drop : DropFn
deriving DecidableEq, Repr

/-- A statically known Rust type `T`, reduced to the data `from_generic`
    extracts from it: `TypeId::of::<T>()`, `type_name::<T>()`,
    `Layout::new::<T>()` and `TypeInfo::drop_ptr::<T>`. -/
structure RustType where
  type_id : TypeId
  type_name : String
  layout : Layout
  drop_ptr : DropFn
deriving DecidableEq, Repr

/-- DataLayout::new (lines 43-58): raw-parts constructor; `type_id` is `None`. -/
def DataLayout.new (name : Option String) (storage_type : StorageType)
    (is_send_and_sync : Bool) (layout : Layout) (drop : DropFn) : DataLayout :=
  { name := name.getD ""
    storage_type := storage_type
    is_send_and_sync := is_send_and_sync
    type_id := none
    layout := layout
    drop := drop }

/-- DataLayout::from_generic::<T> (lines 60-69). -/
def DataLayout.from_generic (T : RustType) (storage_type : StorageType) : DataLayout :=
  { name := T.type_name
    storage_type := storage_type
    is_send_and_sync := true
    type_id := some T.type_id
    layout := T.layout
    drop := T.drop_ptr }

/-- Modelled from the spec: `TypeInfo` lives in `type_info.rs`, which is not
    among the sources; only its accessors `type_name`, `is_send_and_sync`,
    `type_id`, `layout`, `drop` (used by `impl From<TypeInfo> for DataLayout`)
    are needed, so it is the record of those fields. -/
structure TypeInfo where
  type_name : String
  is_send_and_sync : Bool
  type_id : TypeId
  layout : Layout
  drop : DropFn
deriving DecidableEq, Repr

/-- impl From<TypeInfo> for DataLayout (lines 102-113); note
    `storage_type: StorageType::default()`. -/
def DataLayout.fromTypeInfo (ti : TypeInfo) : DataLayout :=
  { name := ti.type_name
    storage_type := StorageType.default
    is_send_and_sync := ti.is_send_and_sync
    type_id := some ti.type_id
    layout := ti.layout
    drop := ti.drop }

/-- struct RelationshipId(usize). -/
structure RelationshipId where
  index : Nat
deriving DecidableEq, Repr

/-- struct RelationshipKindId(usize). -/
structure RelationshipKindId where
  index : Nat
deriving DecidableEq, Repr

/-- struct DummyId(usize). -/
structure DummyId where
  index : Nat
deriving DecidableEq, Repr

/-- TypeId::of::<relationship_kinds::HasComponent>() — designated key 0. -/
def hasComponentTypeId : TypeId := 0

/-- TypeId::of::<relationship_kinds::HasResource>() — designated key 1. -/
def hasResourceTypeId : TypeId := 1

/-- enum EntityOrDummyId (lines 146-154). -/
inductive EntityOrDummyId where
  | entity (e : Entity)
  | dummyId (d : DummyId)
deriving DecidableEq, Repr

/-- struct Relship (lines 156-166): the interning key (kind, target). -/
structure Relship where
  kind : RelationshipKindId
  target : EntityOrDummyId
deriving DecidableEq, Repr

/-- struct RelationshipInfo (lines 168-183). -/
structure RelationshipInfo where
  id : RelationshipId
  relationship : Relship
  data : DataLayout
deriving DecidableEq, Repr

/-- struct RelationshipKindInfo (lines 187-191). -/
structure RelationshipKindInfo where
  id : RelationshipKindId
deriving DecidableEq, Repr

/-- struct DummyInfo (lines 193-197). -/
structure DummyInfo where
  rust_type : Option TypeId
  id : DummyId
deriving DecidableEq, Repr

/-- struct Relationships (lines 201-214). -/
structure Relationships where
  relationships : List RelationshipInfo
  relationship_indices : Relship → Option RelationshipId
  kinds : List RelationshipKindInfo
  kind_indices : DummyId → Option RelationshipKindId
  dummy_id_to_type_id : List DummyInfo
  type_id_to_dummy_id : TypeId → Option DummyId

/-- enum RelationshipsError (lines 241-245). -/
inductive RelationshipsError where
  | relationshipAlreadyExists (r : Relship)
deriving DecidableEq, Repr

namespace Relationships

/-- Relationships::new_relationship_kind (lines 260-265): appends a kind and
    (over)writes the `kind_indices` entry for `dummy_id`. -/
def new_relationship_kind (s : Relationships) (dummy_id : DummyId) :
    RelationshipKindId × Relationships :=
  let id : RelationshipKindId := ⟨s.kinds.length⟩
  (id,
    { s with
      kind_indices := fun d => if d = dummy_id then some id else s.kind_indices d
      kinds := s.kinds ++ [⟨id⟩] })

/-- Relationships::new_dummy_id (lines 270-282).  Pushes a fresh dense id;
    when a type key is supplied, inserts it into the reverse map and
    `assert!`s (here: `none`) if the key was already mapped. -/
def new_dummy_id (s : Relationships) (type_id : Option TypeId) :
    Option (DummyId × Relationships) :=
  let dummy_id : DummyId := ⟨s.dummy_id_to_type_id.length⟩
  let s' : Relationships :=
    { s with dummy_id_to_type_id := s.dummy_id_to_type_id ++ [⟨type_id, dummy_id⟩] }
  match type_id with
  | none => some (dummy_id, s')
  | some tid =>
    match s.type_id_to_dummy_id tid with
    | some _ => none
    | none =>
      some (dummy_id,
        { s' with
          type_id_to_dummy_id := fun t =>
            if t = tid then some dummy_id else s.type_id_to_dummy_id t })

/-- Relationships::relkind_of_has_component (lines 248-252); the two
    panicking map index operations become an Option bind. -/
def relkind_of_has_component (s : Relationships) : Option RelationshipKindId :=
  (s.type_id_to_dummy_id hasComponentTypeId).bind fun d => s.kind_indices d

/-- Relationships::relkind_of_has_resource (lines 254-258). -/
def relkind_of_has_resource (s : Relationships) : Option RelationshipKindId :=
  (s.type_id_to_dummy_id hasResourceTypeId).bind fun d => s.kind_indices d

/-- Relationships::register_relationship (lines 288-308): strict insert; on
    an occupied key it errors before touching any table (the state comes
    back unchanged).  On success it returns the freshly pushed info (the
    source reads it back with `get_relationship_info_unchecked` immediately
    after pushing it). -/
def register_relationship (s : Relationships) (relationship : Relship)
    (comp_descriptor : DataLayout) :
    Except RelationshipsError RelationshipInfo × Relationships :=
  let rel_id : RelationshipId := ⟨s.relationships.length⟩
  match s.relationship_indices relationship with
  | some _ => (.error (.relationshipAlreadyExists relationship), s)
  | none =>
    let info : RelationshipInfo :=
      { id := rel_id, relationship := relationship, data := comp_descriptor }
    (.ok info,
      { s with
        relationship_indices := fun r =>
          if r = relationship then some rel_id else s.relationship_indices r
        relationships := s.relationships ++ [info] })

/-- Relationships::len (lines 310-313). -/
def len (s : Relationships) : Nat := s.relationships.length

/-- Relationships::is_empty (lines 315-318). -/
def is_empty (s : Relationships) : Bool := s.relationships.length == 0

/-- Relationships::get_relationship_id (lines 389-392). -/
def get_relationship_id (s : Relationships) (relationship : Relship) :
    Option RelationshipId :=
  s.relationship_indices relationship

/-- Relationships::get_relationship_info (lines 393-396). -/
def get_relationship_info (s : Relationships) (id : RelationshipId) :
    Option RelationshipInfo :=
  s.relationships[id.index]?

/-- Relationships::get_relationship_info_or_insert_with (lines 404-430).
    If the key is interned, reads the stored info back (the unchecked get is
    `List.get?`); otherwise invokes the closure once, pushes the new info
    and reads it back.  The third component counts closure invocations. -/
def get_relationship_info_or_insert_with (s : Relationships) (relationship : Relship)
    (data_layout : Unit → TypeInfo) :
    Option RelationshipInfo × Relationships × Nat :=
  match s.relationship_indices relationship with
  | some id => (s.relationships[id.index]?, s, 0)
  | none =>
    let rel_id : RelationshipId := ⟨s.relationships.length⟩
    let info : RelationshipInfo :=
      { id := rel_id, relationship := relationship
        data := DataLayout.fromTypeInfo (data_layout ()) }
    let s' : Relationships :=
      { s with
        relationship_indices := fun r =>
          if r = relationship then some rel_id else s.relationship_indices r
        relationships := s.relationships ++ [info] }
    (s'.relationships[rel_id.index]?, s', 1)

/-- Relationships::get_resource_info_or_insert_with (lines 339-356):
    resolve-or-allocate the dummy id for `type_id`, then get-or-insert the
    (has-resource, that dummy) relationship.  `none` marks the panics the
    source could hit (`relkind_of_has_resource` on a registry missing the
    bootstrap entries; the `assert!` in `new_dummy_id` is unreachable here
    because the branch taking it has just checked the key is unmapped). -/
def get_resource_info_or_insert_with (s : Relationships) (type_id : TypeId)
    (data_layout : Unit → TypeInfo) :
    Option (RelationshipInfo × Relationships × Nat) :=
  let step : Option (DummyId × Relationships) :=
    match s.type_id_to_dummy_id type_id with
    | some id => some (id, s)
    | none => s.new_dummy_id (some type_id)
  match step with
  | none => none
  | some (component_id, s1) =>
    match s1.relkind_of_has_resource with
    | none => none
    | some kind =>
      match s1.get_relationship_info_or_insert_with
          ⟨kind, .dummyId component_id⟩ data_layout with
      | (some info, s2, n) => some (info, s2, n)
      | (none, _, _) => none

/-- Relationships::get_component_info_or_insert_with (lines 370-387): same
    as the resource path but with the has-component kind. -/
def get_component_info_or_insert_with (s : Relationships) (type_id : TypeId)
    (data_layout : Unit → TypeInfo) :
    Option (RelationshipInfo × Relationships × Nat) :=
  let step : Option (DummyId × Relationships) :=
    match s.type_id_to_dummy_id type_id with
    | some id => some (id, s)
    | none => s.new_dummy_id (some type_id)
  match step with
  | none => none
  | some (component_id, s1) =>
    match s1.relkind_of_has_component with
    | none => none
    | some kind =>
      match s1.get_relationship_info_or_insert_with
          ⟨kind, .dummyId component_id⟩ data_layout with
      | (some info, s2, n) => some (info, s2, n)
      | (none, _, _) => none

/-- The all-empty record `Default::default()` starts from (lines 218-227). -/
def mkEmpty : Relationships :=
  { relationships := []
    relationship_indices := fun _ => none
    kinds := []
    kind_indices := fun _ => none
    dummy_id_to_type_id := []
    type_id_to_dummy_id := fun _ => none }

/-- impl Default for Relationships (lines 216-239): bootstrap the
    has-component and has-resource dummy ids and kinds. -/
def mkDefault : Option Relationships :=
  match mkEmpty.new_dummy_id (some hasComponentTypeId) with
  | none => none
  | some (has_component_id, s1) =>
    let s2 := (s1.new_relationship_kind has_component_id).2
    match s2.new_dummy_id (some hasResourceTypeId) with
    | none => none
    | some (has_resource_id, s3) =>
      some (s3.new_relationship_kind has_resource_id).2

end Relationships

/-- The concrete registry value `Default::default()` evaluates to. -/
def defaultState : Relationships :=
  { relationships := []
    relationship_indices := fun _ => none
    kinds := [⟨⟨0⟩⟩, ⟨⟨1⟩⟩]
    kind_indices := fun d =>
      if d = ⟨1⟩ then some ⟨1⟩ else if d = ⟨0⟩ then some ⟨0⟩ else none
    dummy_id_to_type_id := [⟨some hasComponentTypeId, ⟨0⟩⟩, ⟨some hasResourceTypeId, ⟨1⟩⟩]
    type_id_to_dummy_id := fun t =>
      if t = hasResourceTypeId then some ⟨1⟩
      else if t = hasComponentTypeId then some ⟨0⟩ else none }

theorem mkDefault_eq : Relationships.mkDefault = some defaultState := rfl

/-- Splitting an index into a one-element tail append: the hit is either in
    the prefix or is the appended element. -/
theorem getElem?_concat_cases {α : Type} (l : List α) (a : α) (i : Nat) (b : α)
    (h : (l ++ [a])[i]? = some b) :
    (i < l.length ∧ l[i]? = some b) ∨ (i = l.length ∧ b = a) := by
  have hlen : i < l.length + 1 := by
    have hse := List.getElem?_eq_some.mp h
    simpa using hse.1
  rcases Nat.lt_or_ge i l.length with hi | hi
  · exact Or.inl ⟨hi, by rwa [List.getElem?_append_left hi] at h⟩
  · have hieq : i = l.length := Nat.le_antisymm (Nat.lt_succ_iff.mp hlen) hi
    subst hieq
    rw [List.getElem?_concat_length] at h
    exact Or.inr ⟨rfl, (Option.some_inj.mp h).symm⟩

/-- The interning invariant every reachable registry satisfies. -/
structure WellFormed (s : Relationships) : Prop where
  rel_key : ∀ (r : Relship) (i : RelationshipId), s.relationship_indices r = some i →
    ∃ info, s.relationships[i.index]? = some info ∧ info.id = i ∧ info.relationship = r
  rel_inj : ∀ (r1 r2 : Relship) (i : RelationshipId), s.relationship_indices r1 = some i →
    s.relationship_indices r2 = some i → r1 = r2
  rel_ids : ∀ (i : Nat) (info : RelationshipInfo),
    s.relationships[i]? = some info → info.id.index = i
  dummy_bound : ∀ (t : TypeId) (d : DummyId), s.type_id_to_dummy_id t = some d →
    d.index < s.dummy_id_to_type_id.length
  dummy_inj : ∀ (t1 t2 : TypeId) (d : DummyId), s.type_id_to_dummy_id t1 = some d →
    s.type_id_to_dummy_id t2 = some d → t1 = t2

theorem defaultState_type_map (t : TypeId) (d : DummyId)
    (h : defaultState.type_id_to_dummy_id t = some d) :
    (t = 1 ∧ d = ⟨1⟩) ∨ (t = 0 ∧ d = ⟨0⟩) := by
  simp only [defaultState, hasResourceTypeId, hasComponentTypeId] at h
  by_cases a : t = 1
  · rw [if_pos a] at h
    exact Or.inl ⟨a, (Option.some_inj.mp h).symm⟩
  · rw [if_neg a] at h
    by_cases b : t = 0
    · rw [if_pos b] at h
      exact Or.inr ⟨b, (Option.some_inj.mp h).symm⟩
    · rw [if_neg b] at h
      cases h

theorem wf_defaultState : WellFormed defaultState := by
  constructor
  · intro r i h
    simp [defaultState] at h
  · intro r1 r2 i h
    simp [defaultState] at h
  · intro i info h
    simp [defaultState] at h
  · intro t d h
    rcases defaultState_type_map t d h with ⟨-, hd⟩ | ⟨-, hd⟩ <;> subst hd <;> decide
  · intro t1 t2 d h1 h2
    rcases defaultState_type_map t1 d h1 with ⟨ht1, hd1⟩ | ⟨ht1, hd1⟩ <;>
      rcases defaultState_type_map t2 d h2 with ⟨ht2, hd2⟩ | ⟨ht2, hd2⟩
    · rw [ht1, ht2]
    · exact absurd (hd1.symm.trans hd2) (by decide)
    · exact absurd (hd1.symm.trans hd2) (by decide)
    · rw [ht1, ht2]

theorem wf_new_relationship_kind (s : Relationships) (d : DummyId)
    (hwf : WellFormed s) : WellFormed (s.new_relationship_kind d).2 :=
  ⟨hwf.rel_key, hwf.rel_inj, hwf.rel_ids, hwf.dummy_bound, hwf.dummy_inj⟩

theorem wf_new_dummy_id (s s' : Relationships) (t : Option TypeId) (d : DummyId)
    (h : s.new_dummy_id t = some (d, s')) (hwf : WellFormed s) : WellFormed s' := by
  cases t with
  | none =>
    simp only [Relationships.new_dummy_id, Option.some.injEq, Prod.mk.injEq] at h
    obtain ⟨-, hs'⟩ := h
    subst hs'
    refine ⟨hwf.rel_key, hwf.rel_inj, hwf.rel_ids, ?_, hwf.dummy_inj⟩
    intro t' d' hmap
    have := hwf.dummy_bound t' d' hmap
    simp only [List.length_append, List.length_cons, List.length_nil]
    omega
  | some tid =>
    simp only [Relationships.new_dummy_id] at h
    cases hmap : s.type_id_to_dummy_id tid with
    | some d0 => rw [hmap] at h; simp at h
    | none =>
      rw [hmap] at h
      simp only [Option.some.injEq, Prod.mk.injEq] at h
      obtain ⟨-, hs'⟩ := h
      subst hs'
      refine ⟨hwf.rel_key, hwf.rel_inj, hwf.rel_ids, ?_, ?_⟩
      · intro t' d' h'
        dsimp only at h'
        simp only [List.length_append, List.length_cons, List.length_nil]
        by_cases ht : t' = tid
        · rw [if_pos ht] at h'
          have hd := Option.some_inj.mp h'
          subst hd
          simp
        · rw [if_neg ht] at h'
          have := hwf.dummy_bound t' d' h'
          omega
      · intro t1 t2 d' h1 h2
        dsimp only at h1 h2
        by_cases ht1 : t1 = tid <;> by_cases ht2 : t2 = tid
        · rw [ht1, ht2]
        · rw [if_pos ht1] at h1
          rw [if_neg ht2] at h2
          have hlt := hwf.dummy_bound t2 d' h2
          rw [← Option.some_inj.mp h1] at hlt
          simp at hlt
        · rw [if_neg ht1] at h1
          rw [if_pos ht2] at h2
          have hlt := hwf.dummy_bound t1 d' h1
          rw [← Option.some_inj.mp h2] at hlt
          simp at hlt
        · rw [if_neg ht1] at h1
          rw [if_neg ht2] at h2
          exact hwf.dummy_inj t1 t2 d' h1 h2

theorem wf_register_relationship (s : Relationships) (r : Relship) (dl : DataLayout)
    (hwf : WellFormed s) : WellFormed (s.register_relationship r dl).2 := by
  unfold Relationships.register_relationship
  cases hocc : s.relationship_indices r with
  | some i => exact hwf
  | none =>
    simp only
    refine ⟨?_, ?_, ?_, hwf.dummy_bound, hwf.dummy_inj⟩
    · intro r' i h'
      dsimp only at h' ⊢
      by_cases hr : r' = r
      · rw [if_pos hr] at h'
        have hi := Option.some_inj.mp h'
        subst hi
        exact ⟨_, List.getElem?_concat_length _ _, rfl, hr ▸ rfl⟩
      · rw [if_neg hr] at h'
        obtain ⟨info, hget, hid, hrel⟩ := hwf.rel_key r' i h'
        have hlt : i.index < s.relationships.length :=
          (List.getElem?_eq_some.mp hget).1
        exact ⟨info, by rw [List.getElem?_append_left hlt]; exact hget, hid, hrel⟩
    · intro r1 r2 i h1 h2
      dsimp only at h1 h2
      by_cases hr1 : r1 = r <;> by_cases hr2 : r2 = r
      · rw [hr1, hr2]
      · rw [if_pos hr1] at h1
        rw [if_neg hr2] at h2
        obtain ⟨info, hget, -, -⟩ := hwf.rel_key r2 i h2
        have hlt := (List.getElem?_eq_some.mp hget).1
        rw [← Option.some_inj.mp h1] at hlt
        simp at hlt
      · rw [if_neg hr1] at h1
        rw [if_pos hr2] at h2
        obtain ⟨info, hget, -, -⟩ := hwf.rel_key r1 i h1
        have hlt := (List.getElem?_eq_some.mp hget).1
        rw [← Option.some_inj.mp h2] at hlt
        simp at hlt
      · rw [if_neg hr1] at h1
        rw [if_neg hr2] at h2
        exact hwf.rel_inj r1 r2 i h1 h2
    · intro i info h'
      dsimp only at h'
      rcases getElem?_concat_cases _ _ _ _ h' with ⟨-, hget⟩ | ⟨hi, hinfo⟩
      · exact hwf.rel_ids i info hget
      · rw [hinfo, hi]

theorem wf_get_or_insert (s : Relationships) (r : Relship) (f : Unit → TypeInfo)
    (hwf : WellFormed s) :
    WellFormed (s.get_relationship_info_or_insert_with r f).2.1 := by
  unfold Relationships.get_relationship_info_or_insert_with
  cases hocc : s.relationship_indices r with
  | some i => exact hwf
  | none =>
    simp only
    refine ⟨?_, ?_, ?_, hwf.dummy_bound, hwf.dummy_inj⟩
    · intro r' i h'
      dsimp only at h' ⊢
      by_cases hr : r' = r
      · rw [if_pos hr] at h'
        have hi := Option.some_inj.mp h'
        subst hi
        exact ⟨_, List.getElem?_concat_length _ _, rfl, hr ▸ rfl⟩
      · rw [if_neg hr] at h'
        obtain ⟨info, hget, hid, hrel⟩ := hwf.rel_key r' i h'
        have hlt : i.index < s.relationships.length :=
          (List.getElem?_eq_some.mp hget).1
        exact ⟨info, by rw [List.getElem?_append_left hlt]; exact hget, hid, hrel⟩
    · intro r1 r2 i h1 h2
      dsimp only at h1 h2
      by_cases hr1 : r1 = r <;> by_cases hr2 : r2 = r
      · rw [hr1, hr2]
      · rw [if_pos hr1] at h1
        rw [if_neg hr2] at h2
        obtain ⟨info, hget, -, -⟩ := hwf.rel_key r2 i h2
        have hlt := (List.getElem?_eq_some.mp hget).1
        rw [← Option.some_inj.mp h1] at hlt
        simp at hlt
      · rw [if_neg hr1] at h1
        rw [if_pos hr2] at h2
        obtain ⟨info, hget, -, -⟩ := hwf.rel_key r1 i h1
        have hlt := (List.getElem?_eq_some.mp hget).1
        rw [← Option.some_inj.mp h2] at hlt
        simp at hlt
      · rw [if_neg hr1] at h1
        rw [if_neg hr2] at h2
        exact hwf.rel_inj r1 r2 i h1 h2
    · intro i info h'
      dsimp only at h'
      rcases getElem?_concat_cases _ _ _ _ h' with ⟨-, hget⟩ | ⟨hi, hinfo⟩
      · exact hwf.rel_ids i info hget
      · rw [hinfo, hi]

/-- Unfolding a successful resource get-or-insert into its three stages:
    dummy-id resolution, has-resource kind lookup, relationship interning. -/
theorem resource_or_insert_decompose (s s' : Relationships) (t : TypeId)
    (f : Unit → TypeInfo) (info : RelationshipInfo) (n : Nat)
    (h : s.get_resource_info_or_insert_with t f = some (info, s', n)) :
    ∃ (s1 : Relationships) (cid : DummyId) (kind : RelationshipKindId),
      ((s.type_id_to_dummy_id t = some cid ∧ s1 = s) ∨
        s.new_dummy_id (some t) = some (cid, s1)) ∧
      s1.relkind_of_has_resource = some kind ∧
      s1.get_relationship_info_or_insert_with ⟨kind, .dummyId cid⟩ f =
        (some info, s', n) := by
  unfold Relationships.get_resource_info_or_insert_with at h
  cases hmap : s.type_id_to_dummy_id t with
  | some cid =>
    rw [hmap] at h
    simp only at h
    cases hk : s.relkind_of_has_resource with
    | none => rw [hk] at h; simp at h
    | some kind =>
      rw [hk] at h
      simp only at h
      cases hins : s.get_relationship_info_or_insert_with ⟨kind, .dummyId cid⟩ f with
      | mk o rest =>
        rw [hins] at h
        cases o with
        | none => simp at h
        | some info' =>
          simp only [Option.some.injEq, Prod.mk.injEq] at h
          obtain ⟨h1, h2, h3⟩ := h
          exact ⟨s, cid, kind, Or.inl ⟨rfl, rfl⟩, hk, by
            rw [hins, h1, ← h2, ← h3]⟩
  | none =>
    rw [hmap] at h
    simp only at h
    cases hnd : s.new_dummy_id (some t) with
    | none => rw [hnd] at h; simp at h
    | some pr =>
      obtain ⟨cid, s1⟩ := pr
      rw [hnd] at h
      simp only at h
      cases hk : s1.relkind_of_has_resource with
      | none => rw [hk] at h; simp at h
      | some kind =>
        rw [hk] at h
        simp only at h
        cases hins : s1.get_relationship_info_or_insert_with ⟨kind, .dummyId cid⟩ f with
        | mk o rest =>
          rw [hins] at h
          cases o with
          | none => simp at h
          | some info' =>
            simp only [Option.some.injEq, Prod.mk.injEq] at h
            obtain ⟨h1, h2, h3⟩ := h
            exact ⟨s1, cid, kind, Or.inr rfl, hk, by rw [hins, h1, ← h2, ← h3]⟩

/-- Unfolding a successful component get-or-insert the same way. -/
theorem component_or_insert_decompose (s s' : Relationships) (t : TypeId)
    (f : Unit → TypeInfo) (info : RelationshipInfo) (n : Nat)
    (h : s.get_component_info_or_insert_with t f = some (info, s', n)) :
    ∃ (s1 : Relationships) (cid : DummyId) (kind : RelationshipKindId),
      ((s.type_id_to_dummy_id t = some cid ∧ s1 = s) ∨
        s.new_dummy_id (some t) = some (cid, s1)) ∧
      s1.relkind_of_has_component = some kind ∧
      s1.get_relationship_info_or_insert_with ⟨kind, .dummyId cid⟩ f =
        (some info, s', n) := by
  unfold Relationships.get_component_info_or_insert_with at h
  cases hmap : s.type_id_to_dummy_id t with
  | some cid =>
    rw [hmap] at h
    simp only at h
    cases hk : s.relkind_of_has_component with
    | none => rw [hk] at h; simp at h
    | some kind =>
      rw [hk] at h
      simp only at h
      cases hins : s.get_relationship_info_or_insert_with ⟨kind, .dummyId cid⟩ f with
      | mk o rest =>
        rw [hins] at h
        cases o with
        | none => simp at h
        | some info' =>
          simp only [Option.some.injEq, Prod.mk.injEq] at h
          obtain ⟨h1, h2, h3⟩ := h
          exact ⟨s, cid, kind, Or.inl ⟨rfl, rfl⟩, hk, by
            rw [hins, h1, ← h2, ← h3]⟩
  | none =>
    rw [hmap] at h
    simp only at h
    cases hnd : s.new_dummy_id (some t) with
    | none => rw [hnd] at h; simp at h
    | some pr =>
      obtain ⟨cid, s1⟩ := pr
      rw [hnd] at h
      simp only at h
      cases hk : s1.relkind_of_has_component with
      | none => rw [hk] at h; simp at h
      | some kind =>
        rw [hk] at h
        simp only at h
        cases hins : s1.get_relationship_info_or_insert_with ⟨kind, .dummyId cid⟩ f with
        | mk o rest =>
          rw [hins] at h
          cases o with
          | none => simp at h
          | some info' =>
            simp only [Option.some.injEq, Prod.mk.injEq] at h
            obtain ⟨h1, h2, h3⟩ := h
            exact ⟨s1, cid, kind, Or.inr rfl, hk, by rw [hins, h1, ← h2, ← h3]⟩

/-- One mutating registry operation, with any arguments.  The read accessors
    never change the state; a panicking call produces no successor state. -/
inductive Step : Relationships → Relationships → Prop where
  | new_relationship_kind {s : Relationships} (d : DummyId) :
      Step s (s.new_relationship_kind d).2
  | new_dummy_id {s s' : Relationships} (t : Option TypeId) (d : DummyId)
      (h : s.new_dummy_id t = some (d, s')) : Step s s'
  | register_relationship {s : Relationships} (r : Relship) (dl : DataLayout) :
      Step s (s.register_relationship r dl).2
  | get_or_insert {s : Relationships} (r : Relship) (f : Unit → TypeInfo) :
      Step s (s.get_relationship_info_or_insert_with r f).2.1
  | resource_or_insert {s s' : Relationships} (t : TypeId) (f : Unit → TypeInfo)
      (info : RelationshipInfo) (n : Nat)
      (h : s.get_resource_info_or_insert_with t f = some (info, s', n)) : Step s s'
  | component_or_insert {s s' : Relationships} (t : TypeId) (f : Unit → TypeInfo)
      (info : RelationshipInfo) (n : Nat)
      (h : s.get_component_info_or_insert_with t f = some (info, s', n)) : Step s s'

/-- Any number of mutating operations. -/
def StepStar : Relationships → Relationships → Prop :=
  Relation.ReflTransGen Step

/-- Registry states obtainable from `Default::default()` by the public
    mutating operations. -/
inductive Reachable : Relationships → Prop where
  | start (s : Relationships) (h : Relationships.mkDefault = some s) : Reachable s
  | step (s s' : Relationships) (hr : Reachable s) (hs : Step s s') : Reachable s'

theorem wf_step (s s' : Relationships) (h : Step s s') (hwf : WellFormed s) :
    WellFormed s' := by
  cases h with
  | new_relationship_kind d => exact wf_new_relationship_kind s d hwf
  | new_dummy_id t d h => exact wf_new_dummy_id s s' t d h hwf
  | register_relationship r dl => exact wf_register_relationship s r dl hwf
  | get_or_insert r f => exact wf_get_or_insert s r f hwf
  | resource_or_insert t f info n h =>
    obtain ⟨s1, cid, kind, hstage, -, hins⟩ := resource_or_insert_decompose s s' t f info n h
    have hwf1 : WellFormed s1 := by
      rcases hstage with ⟨-, rfl⟩ | hnd
      · exact hwf
      · exact wf_new_dummy_id s s1 (some t) cid hnd hwf
    have := wf_get_or_insert s1 ⟨kind, .dummyId cid⟩ f hwf1
    rw [hins] at this
    exact this
  | component_or_insert t f info n h =>
    obtain ⟨s1, cid, kind, hstage, -, hins⟩ := component_or_insert_decompose s s' t f info n h
    have hwf1 : WellFormed s1 := by
      rcases hstage with ⟨-, rfl⟩ | hnd
      · exact hwf
      · exact wf_new_dummy_id s s1 (some t) cid hnd hwf
    have := wf_get_or_insert s1 ⟨kind, .dummyId cid⟩ f hwf1
    rw [hins] at this
    exact this

theorem new_dummy_id_relationships (s s' : Relationships) (t : Option TypeId) (d : DummyId)
    (h : s.new_dummy_id t = some (d, s')) : s'.relationships = s.relationships := by
  cases t with
  | none =>
    simp only [Relationships.new_dummy_id, Option.some.injEq, Prod.mk.injEq] at h
    rw [← h.2]
  | some tid =>
    simp only [Relationships.new_dummy_id] at h
    cases hmap : s.type_id_to_dummy_id tid with
    | some d0 => rw [hmap] at h; simp at h
    | none =>
      rw [hmap] at h
      simp only [Option.some.injEq, Prod.mk.injEq] at h
      rw [← h.2]

theorem register_relationship_mono (s : Relationships) (r : Relship) (dl : DataLayout)
    (i : Nat) (info : RelationshipInfo) (hget : s.relationships[i]? = some info) :
    (s.register_relationship r dl).2.relationships[i]? = some info := by
  unfold Relationships.register_relationship
  cases hocc : s.relationship_indices r with
  | some j => exact hget
  | none =>
    dsimp only
    rw [List.getElem?_append_left (List.getElem?_eq_some.mp hget).1]
    exact hget

theorem get_or_insert_mono (s : Relationships) (r : Relship) (f : Unit → TypeInfo)
    (i : Nat) (info : RelationshipInfo) (hget : s.relationships[i]? = some info) :
    (s.get_relationship_info_or_insert_with r f).2.1.relationships[i]? = some info := by
  unfold Relationships.get_relationship_info_or_insert_with
  cases hocc : s.relationship_indices r with
  | some j => exact hget
  | none =>
    dsimp only
    rw [List.getElem?_append_left (List.getElem?_eq_some.mp hget).1]
    exact hget

/-- One operation never removes, moves or rewrites an already stored
    RelationshipInfo. -/
theorem step_mono (s s' : Relationships) (h : Step s s')
    (i : Nat) (info : RelationshipInfo) (hget : s.relationships[i]? = some info) :
    s'.relationships[i]? = some info := by
  cases h with
  | new_relationship_kind d => exact hget
  | new_dummy_id t d h => rw [new_dummy_id_relationships s s' t d h]; exact hget
  | register_relationship r dl => exact register_relationship_mono s r dl i info hget
  | get_or_insert r f => exact get_or_insert_mono s r f i info hget
  | resource_or_insert t f info' n h =>
    obtain ⟨s1, cid, kind, hstage, -, hins⟩ := resource_or_insert_decompose s s' t f info' n h
    have hget1 : s1.relationships[i]? = some info := by
      rcases hstage with ⟨-, rfl⟩ | hnd
      · exact hget
      · rw [new_dummy_id_relationships s s1 (some t) cid hnd]; exact hget
    have := get_or_insert_mono s1 ⟨kind, .dummyId cid⟩ f i info hget1
    rw [hins] at this
    exact this
  | component_or_insert t f info' n h =>
    obtain ⟨s1, cid, kind, hstage, -, hins⟩ := component_or_insert_decompose s s' t f info' n h
    have hget1 : s1.relationships[i]? = some info := by
      rcases hstage with ⟨-, rfl⟩ | hnd
      · exact hget
      · rw [new_dummy_id_relationships s s1 (some t) cid hnd]; exact hget
    have := get_or_insert_mono s1 ⟨kind, .dummyId cid⟩ f i info hget1
    rw [hins] at this
    exact this

/-- Any sequence of operations preserves every stored RelationshipInfo. -/
theorem stepStar_mono (s s' : Relationships) (h : StepStar s s')
    (i : Nat) (info : RelationshipInfo) (hget : s.relationships[i]? = some info) :
    s'.relationships[i]? = some info := by
  induction h with
  | refl => exact hget
  | tail hstar hstep ih => exact step_mono _ _ hstep i info ih

theorem wf_reachable (s : Relationships) (h : Reachable s) : WellFormed s := by
  induction h with
  | start s h =>
    rw [mkDefault_eq, Option.some_inj] at h
    rw [← h]
    exact wf_defaultState
  | step s s' hr hs ih => exact wf_step s s' hs ih

/-- register_relationship on an interned key: error carrying the key, state
    untouched. -/
theorem register_relationship_occupied (s : Relationships) (r : Relship)
    (dl : DataLayout) (i : RelationshipId)
    (hocc : s.relationship_indices r = some i) :
    s.register_relationship r dl =
      (Except.error (RelationshipsError.relationshipAlreadyExists r), s) := by
  unfold Relationships.register_relationship
  rw [hocc]

/-- register_relationship on a fresh key: the info stored and returned. -/
theorem register_relationship_fresh (s : Relationships) (r : Relship)
    (dl : DataLayout) (hocc : s.relationship_indices r = none) :
    s.register_relationship r dl =
      (Except.ok ⟨⟨s.relationships.length⟩, r, dl⟩,
        { s with
          relationship_indices := fun r' =>
            if r' = r then some ⟨s.relationships.length⟩
            else s.relationship_indices r'
          relationships :=
            s.relationships ++ [⟨⟨s.relationships.length⟩, r, dl⟩] }) := by
  unfold Relationships.register_relationship
  rw [hocc]

/-- get_relationship_info_or_insert_with on an interned key: reads back the
    stored info, leaves the state alone, does not invoke the closure. -/
theorem get_or_insert_occupied (s : Relationships) (r : Relship)
    (f : Unit → TypeInfo) (i : RelationshipId)
    (hocc : s.relationship_indices r = some i) :
    s.get_relationship_info_or_insert_with r f =
      (s.relationships[i.index]?, s, 0) := by
  unfold Relationships.get_relationship_info_or_insert_with
  rw [hocc]

/-- get_relationship_info_or_insert_with on a fresh key: invokes the closure
    once and stores the new info at the next dense id. -/
theorem get_or_insert_fresh (s : Relationships) (r : Relship)
    (f : Unit → TypeInfo) (hocc : s.relationship_indices r = none) :
    s.get_relationship_info_or_insert_with r f =
      (some ⟨⟨s.relationships.length⟩, r, DataLayout.fromTypeInfo (f ())⟩,
        { s with
          relationship_indices := fun r' =>
            if r' = r then some ⟨s.relationships.length⟩
            else s.relationship_indices r'
          relationships :=
            s.relationships ++
              [⟨⟨s.relationships.length⟩, r, DataLayout.fromTypeInfo (f ())⟩] },
        1) := by
  unfold Relationships.get_relationship_info_or_insert_with
  rw [hocc]
  dsimp only
  rw [List.getElem?_concat_length]

/-- A raw-parts descriptor used to exercise the registry in examples. -/
def sampleDescriptor : DataLayout := DataLayout.new none .table true ⟨16, 8⟩ 0

/-- A relationship key over the bootstrapped has-component kind. -/
def sampleKey : Relship := ⟨⟨0⟩, .dummyId ⟨0⟩⟩

/-- A second, different relationship key. -/
def sampleKey2 : Relship := ⟨⟨1⟩, .dummyId ⟨1⟩⟩

/-- A sample TypeInfo for a statically known type with key 5. -/
def sampleTypeInfo : TypeInfo := ⟨"Sample", true, 5, ⟨4, 4⟩, 0⟩

/-- A descriptor factory producing `sampleTypeInfo`. -/
def sampleFactory : Unit → TypeInfo := fun _ => sampleTypeInfo

/-- The registry after strictly registering `sampleKey` on a fresh registry. -/
def registeredState : Relationships :=
  (defaultState.register_relationship sampleKey sampleDescriptor).2

/-- The registry after registering `sampleKey` and then `sampleKey2`. -/
def twoKeyState : Relationships :=
  (registeredState.register_relationship sampleKey2 sampleDescriptor).2

theorem reachable_twoKeyState : Reachable twoKeyState :=
  .step registeredState twoKeyState
    (.step defaultState registeredState (.start defaultState rfl)
      (Step.register_relationship sampleKey sampleDescriptor))
    (Step.register_relationship sampleKey2 sampleDescriptor)

/-- C3: a registry freshly constructed via Default has exactly two
    relationship kinds registered, relkind_of_has_component and
    relkind_of_has_resource both succeed on it, and the two kind ids they
    return are different. -/
theorem c3_bootstrap_invariant :
    Relationships.mkDefault = some defaultState ∧
    defaultState.kinds.length = 2 ∧
    defaultState.relkind_of_has_component = some ⟨0⟩ ∧
    defaultState.relkind_of_has_resource = some ⟨1⟩ ∧
    defaultState.relkind_of_has_component ≠ defaultState.relkind_of_has_resource :=
  ⟨rfl, rfl, rfl, rfl, by decide⟩

/-- C10: len and is_empty count only interned relationships — the freshly
    constructed registry has len 0 and is_empty true even though two
    relationship kinds and two dummy (category) ids were bootstrapped. -/
theorem c10_len_counts_only_relationships :
    Relationships.mkDefault = some defaultState ∧
    defaultState.len = 0 ∧
    defaultState.is_empty = true ∧
    defaultState.kinds.length = 2 ∧
    defaultState.dummy_id_to_type_id.length = 2 :=
  ⟨rfl, rfl, rfl, rfl, rfl⟩

/-- C7: from_generic always produces a descriptor with the thread-safety
    flag true and a present type key, and never fails (it is total); the
    raw-parts constructor `new` always leaves the type key absent. -/
theorem c7_descriptor_construction (T : RustType) (st : StorageType)
    (nm : Option String) (st2 : StorageType) (sync : Bool) (ly : Layout)
    (dp : DropFn) :
    (DataLayout.from_generic T st).is_send_and_sync = true ∧
    (DataLayout.from_generic T st).type_id = some T.type_id ∧
    (DataLayout.new nm st2 sync ly dp).type_id = none :=
  ⟨rfl, rfl, rfl⟩

/-- C8: new_relationship_kind performs no duplicate check — called twice
    with the same dummy (category) id it succeeds both times and returns
    two distinct kind ids. -/
theorem c8_new_kind_no_duplicate_check (s : Relationships) (d : DummyId) :
    (s.new_relationship_kind d).1 = ⟨s.kinds.length⟩ ∧
    ((s.new_relationship_kind d).2.new_relationship_kind d).1 =
      ⟨s.kinds.length + 1⟩ ∧
    ((s.new_relationship_kind d).2.new_relationship_kind d).1 ≠
      (s.new_relationship_kind d).1 := by
  refine ⟨rfl, ?_, ?_⟩
  · simp [Relationships.new_relationship_kind]
  · simp [Relationships.new_relationship_kind]

/-- C6: new_dummy_id with an already mapped type key hits the assertion
    (modelled as `none`); with an unmapped or absent type key it never
    does. -/
theorem c6_new_dummy_id_duplicate_asserts (s : Relationships) (t : TypeId) :
    ((s.type_id_to_dummy_id t).isSome →
      s.new_dummy_id (some t) = none) ∧
    (s.type_id_to_dummy_id t = none →
      (s.new_dummy_id (some t)).isSome = true) ∧
    (s.new_dummy_id none).isSome = true := by
  refine ⟨?_, ?_, rfl⟩
  · intro h
    cases hmap : s.type_id_to_dummy_id t with
    | none => rw [hmap] at h; simp at h
    | some d => simp only [Relationships.new_dummy_id, hmap]
  · intro h
    simp only [Relationships.new_dummy_id, h, Option.isSome_some]

/-- Witness for C6 on concrete registries: duplicate key 0 asserts on the
    fresh registry, unmapped key 5 and an absent key do not. -/
theorem c6_witness :
    ((defaultState.type_id_to_dummy_id hasComponentTypeId).isSome = true) ∧
    defaultState.new_dummy_id (some hasComponentTypeId) = none ∧
    defaultState.type_id_to_dummy_id 5 = none ∧
    ((defaultState.new_dummy_id (some 5)).isSome = true) ∧
    ((defaultState.new_dummy_id none).isSome = true) :=
  ⟨rfl,
   (c6_new_dummy_id_duplicate_asserts defaultState hasComponentTypeId).1 rfl,
   rfl,
   (c6_new_dummy_id_duplicate_asserts defaultState 5).2.1 rfl,
   (c6_new_dummy_id_duplicate_asserts defaultState 5).2.2⟩

/-- C1: idempotent get-or-insert — two successive calls with the same key
    and factory return infos carrying the same relationship id, the factory
    runs at most once across both calls (never on the second call), and not
    at all when the key is already interned. -/
theorem c1_get_or_insert_idempotent (s : Relationships) (r : Relship)
    (f : Unit → TypeInfo) (hwf : WellFormed s) :
    (∃ i1 i2,
      (s.get_relationship_info_or_insert_with r f).1 = some i1 ∧
      ((s.get_relationship_info_or_insert_with r
          f).2.1.get_relationship_info_or_insert_with r f).1 = some i2 ∧
      i1.id = i2.id) ∧
    (s.get_relationship_info_or_insert_with r f).2.2 +
      ((s.get_relationship_info_or_insert_with r
          f).2.1.get_relationship_info_or_insert_with r f).2.2 ≤ 1 ∧
    ((s.get_relationship_info_or_insert_with r
        f).2.1.get_relationship_info_or_insert_with r f).2.2 = 0 ∧
    ((s.relationship_indices r).isSome →
      (s.get_relationship_info_or_insert_with r f).2.2 = 0) := by
  cases hocc : s.relationship_indices r with
  | some i =>
    obtain ⟨info, hget, hid, hrel⟩ := hwf.rel_key r i hocc
    have e1 := get_or_insert_occupied s r f i hocc
    rw [e1]
    dsimp only
    rw [e1]
    dsimp only
    exact ⟨⟨info, info, hget, hget, rfl⟩, by simp, rfl, fun _ => rfl⟩
  | none =>
    have e1 := get_or_insert_fresh s r f hocc
    rw [e1]
    dsimp only
    have hocc2 :
        (({ s with
            relationship_indices := fun r' =>
              if r' = r then some ⟨s.relationships.length⟩
              else s.relationship_indices r'
            relationships :=
              s.relationships ++
                [⟨⟨s.relationships.length⟩, r, DataLayout.fromTypeInfo (f ())⟩] } :
          Relationships)).relationship_indices r =
          some ⟨s.relationships.length⟩ := by
      dsimp only
      rw [if_pos rfl]
    have e2 := get_or_insert_occupied _ r f _ hocc2
    rw [e2]
    dsimp only
    refine ⟨⟨_, _, rfl, ?_, rfl⟩, by simp, rfl, ?_⟩
    · dsimp only
      rw [List.getElem?_concat_length]
    · intro hs
      simp at hs

/-- Witness for C1 at the fresh registry with a concrete key and factory. -/
theorem c1_witness :
    WellFormed defaultState ∧
    ((∃ i1 i2,
      (defaultState.get_relationship_info_or_insert_with sampleKey
        sampleFactory).1 = some i1 ∧
      ((defaultState.get_relationship_info_or_insert_with sampleKey
          sampleFactory).2.1.get_relationship_info_or_insert_with sampleKey
          sampleFactory).1 = some i2 ∧
      i1.id = i2.id) ∧
    (defaultState.get_relationship_info_or_insert_with sampleKey
        sampleFactory).2.2 +
      ((defaultState.get_relationship_info_or_insert_with sampleKey
          sampleFactory).2.1.get_relationship_info_or_insert_with sampleKey
          sampleFactory).2.2 ≤ 1 ∧
    ((defaultState.get_relationship_info_or_insert_with sampleKey
        sampleFactory).2.1.get_relationship_info_or_insert_with sampleKey
        sampleFactory).2.2 = 0 ∧
    ((defaultState.relationship_indices sampleKey).isSome →
      (defaultState.get_relationship_info_or_insert_with sampleKey
        sampleFactory).2.2 = 0)) :=
  ⟨wf_defaultState,
   c1_get_or_insert_idempotent defaultState sampleKey sampleFactory wf_defaultState⟩

/-- C4: on every reachable registry state, distinct interned relationship
    keys carry distinct relationship ids, and distinct type keys mapped to
    dummy (category) ids carry distinct dummy ids. -/
theorem c4_injectivity (s : Relationships) (hreach : Reachable s) :
    (∀ (k1 k2 : Relship) (i1 i2 : RelationshipId), k1 ≠ k2 →
      s.relationship_indices k1 = some i1 →
      s.relationship_indices k2 = some i2 → i1 ≠ i2) ∧
    (∀ (t1 t2 : TypeId) (d1 d2 : DummyId), t1 ≠ t2 →
      s.type_id_to_dummy_id t1 = some d1 →
      s.type_id_to_dummy_id t2 = some d2 → d1 ≠ d2) := by
  have hwf := wf_reachable s hreach
  constructor
  · intro k1 k2 i1 i2 hne h1 h2 heq
    rw [← heq] at h2
    exact hne (hwf.rel_inj k1 k2 i1 h1 h2)
  · intro t1 t2 d1 d2 hne h1 h2 heq
    rw [← heq] at h2
    exact hne (hwf.dummy_inj t1 t2 d1 h1 h2)

/-- Witness for C4 on the reachable registry holding two interned keys and
    the two bootstrap type-key mappings. -/
theorem c4_witness :
    Reachable twoKeyState ∧
    sampleKey ≠ sampleKey2 ∧
    twoKeyState.relationship_indices sampleKey = some ⟨0⟩ ∧
    twoKeyState.relationship_indices sampleKey2 = some ⟨1⟩ ∧
    (⟨0⟩ : RelationshipId) ≠ ⟨1⟩ ∧
    hasComponentTypeId ≠ hasResourceTypeId ∧
    twoKeyState.type_id_to_dummy_id hasComponentTypeId = some ⟨0⟩ ∧
    twoKeyState.type_id_to_dummy_id hasResourceTypeId = some ⟨1⟩ ∧
    (⟨0⟩ : DummyId) ≠ ⟨1⟩ :=
  ⟨reachable_twoKeyState, by decide, rfl, rfl,
   (c4_injectivity twoKeyState reachable_twoKeyState).1 sampleKey sampleKey2
     ⟨0⟩ ⟨1⟩ (by decide) rfl rfl,
   by decide, rfl, rfl,
   (c4_injectivity twoKeyState reachable_twoKeyState).2 hasComponentTypeId
     hasResourceTypeId ⟨0⟩ ⟨1⟩ (by decide) rfl rfl⟩

/-- C5: round-trip stability — every info returned by an insert operation
    keeps its key, resolves by its id to itself, and keeps doing so after
    any further sequence of registry operations. -/
theorem c5_round_trip (s : Relationships) (hwf : WellFormed s) :
    (∀ (r : Relship) (dl : DataLayout) (info : RelationshipInfo)
        (s' : Relationships),
      s.register_relationship r dl = (Except.ok info, s') →
      info.relationship = r ∧
      ∀ (s'' : Relationships), StepStar s' s'' →
        s''.get_relationship_info info.id = some info) ∧
    (∀ (r : Relship) (f : Unit → TypeInfo) (info : RelationshipInfo)
        (s' : Relationships) (n : Nat),
      s.get_relationship_info_or_insert_with r f = (some info, s', n) →
      info.relationship = r ∧
      ∀ (s'' : Relationships), StepStar s' s'' →
        s''.get_relationship_info info.id = some info) := by
  constructor
  · intro r dl info s' h
    cases hocc : s.relationship_indices r with
    | some i =>
      rw [register_relationship_occupied s r dl i hocc] at h
      simp at h
    | none =>
      rw [register_relationship_fresh s r dl hocc] at h
      simp only [Prod.mk.injEq, Except.ok.injEq] at h
      obtain ⟨hinfo, hs'⟩ := h
      subst hinfo
      subst hs'
      refine ⟨rfl, ?_⟩
      intro s'' hstar
      refine stepStar_mono _ s'' hstar s.relationships.length _ ?_
      exact List.getElem?_concat_length _ _
  · intro r f info s' n h
    cases hocc : s.relationship_indices r with
    | some i =>
      rw [get_or_insert_occupied s r f i hocc] at h
      simp only [Prod.mk.injEq] at h
      obtain ⟨hget, hs', -⟩ := h
      subst hs'
      obtain ⟨info0, hget0, hid0, hrel0⟩ := hwf.rel_key r i hocc
      rw [hget0] at hget
      have hinfo := Option.some_inj.mp hget
      subst hinfo
      refine ⟨hrel0, ?_⟩
      intro s'' hstar
      refine stepStar_mono _ s'' hstar _ _ ?_
      rw [hid0]
      exact hget0
    | none =>
      rw [get_or_insert_fresh s r f hocc] at h
      simp only [Prod.mk.injEq, Option.some.injEq] at h
      obtain ⟨hinfo, hs', -⟩ := h
      subst hinfo
      subst hs'
      refine ⟨rfl, ?_⟩
      intro s'' hstar
      refine stepStar_mono _ s'' hstar s.relationships.length _ ?_
      exact List.getElem?_concat_length _ _

/-- Witness for C5: register a key on the fresh registry, run one more
    operation, and resolve the returned id back to the same info. -/
theorem c5_witness :
    WellFormed defaultState ∧
    ((⟨⟨0⟩, sampleKey, sampleDescriptor⟩ : RelationshipInfo).relationship =
      sampleKey) ∧
    twoKeyState.get_relationship_info ⟨0⟩ =
      some ⟨⟨0⟩, sampleKey, sampleDescriptor⟩ :=
  have h := (c5_round_trip defaultState wf_defaultState).1 sampleKey
    sampleDescriptor ⟨⟨0⟩, sampleKey, sampleDescriptor⟩ registeredState rfl
  ⟨wf_defaultState, h.1,
   h.2 twoKeyState
     (Relation.ReflTransGen.single
       (Step.register_relationship sampleKey2 sampleDescriptor))⟩

/-- C9: component/resource separation — on a fresh registry, registering a
    type as a component yields r0; registering it again as a component
    returns r0 unchanged; registering it as a resource yields r1 with a
    different relationship id, the same dummy (category) target, and the
    has-resource kind instead of the has-component kind. -/
theorem c9_component_resource_separation (tid : TypeId)
    (f g k : Unit → TypeInfo) :
    ∃ (r0 r0b r1 : RelationshipInfo),
      (defaultState.get_component_info_or_insert_with tid f).map Prod.fst =
        some r0 ∧
      ((defaultState.get_component_info_or_insert_with tid f).bind fun x =>
        x.2.1.get_component_info_or_insert_with tid g).map Prod.fst =
        some r0b ∧
      r0b = r0 ∧
      (((defaultState.get_component_info_or_insert_with tid f).bind fun x =>
          x.2.1.get_component_info_or_insert_with tid g).bind fun y =>
        y.2.1.get_resource_info_or_insert_with tid k).map Prod.fst =
        some r1 ∧
      r1.id ≠ r0.id ∧
      r1.relationship.target = r0.relationship.target ∧
      r1.relationship.kind ≠ r0.relationship.kind ∧
      defaultState.relkind_of_has_component = some r0.relationship.kind ∧
      defaultState.relkind_of_has_resource = some r1.relationship.kind := by
  by_cases h0 : tid = 0
  · subst h0
    simp [Relationships.get_component_info_or_insert_with,
          Relationships.get_resource_info_or_insert_with,
          Relationships.new_dummy_id,
          Relationships.relkind_of_has_component,
          Relationships.relkind_of_has_resource,
          Relationships.get_relationship_info_or_insert_with,
          defaultState, hasComponentTypeId, hasResourceTypeId]
  · by_cases h1 : tid = 1
    · subst h1
      simp [Relationships.get_component_info_or_insert_with,
            Relationships.get_resource_info_or_insert_with,
            Relationships.new_dummy_id,
            Relationships.relkind_of_has_component,
            Relationships.relkind_of_has_resource,
            Relationships.get_relationship_info_or_insert_with,
            defaultState, hasComponentTypeId, hasResourceTypeId]
    · simp [Relationships.get_component_info_or_insert_with,
            Relationships.get_resource_info_or_insert_with,
            Relationships.new_dummy_id,
            Relationships.relkind_of_has_component,
            Relationships.relkind_of_has_resource,
            Relationships.get_relationship_info_or_insert_with,
            defaultState, hasComponentTypeId, hasResourceTypeId,
            h0, h1, Ne.symm h0, Ne.symm h1]

/-- C2: strict registration is error-raising and atomic — on an interned
    key it returns a duplicate-relationship error carrying the key and
    leaves the whole registry value unchanged; on a fresh key it succeeds
    and never errors. -/
theorem c2_register_relationship_strict (s : Relationships) (r : Relship)
    (dl : DataLayout) :
    ((s.relationship_indices r).isSome →
      s.register_relationship r dl =
        (Except.error (RelationshipsError.relationshipAlreadyExists r), s)) ∧
    (s.relationship_indices r = none →
      ∃ info s', s.register_relationship r dl = (Except.ok info, s')) := by
  constructor
  · intro h
    cases hocc : s.relationship_indices r with
    | none => rw [hocc] at h; simp at h
    | some i => exact register_relationship_occupied s r dl i hocc
  · intro h
    exact ⟨_, _, register_relationship_fresh s r dl h⟩

/-- Witness for C2: registering `sampleKey` on the fresh registry succeeds;
    registering it again errors with the key and returns the registry
    unchanged. -/
theorem c2_witness :
    defaultState.relationship_indices sampleKey = none ∧
    (∃ info s',
      defaultState.register_relationship sampleKey sampleDescriptor =
        (Except.ok info, s')) ∧
    ((registeredState.relationship_indices sampleKey).isSome = true) ∧
    registeredState.register_relationship sampleKey sampleDescriptor =
      (Except.error (RelationshipsError.relationshipAlreadyExists sampleKey),
        registeredState) :=
  ⟨rfl,
   (c2_register_relationship_strict defaultState sampleKey sampleDescriptor).2 rfl,
   rfl,
   (c2_register_relationship_strict registeredState sampleKey sampleDescriptor).1 rfl⟩

end BevyEcs
